import Mathlib

/-!
Verification of the hospital bed occupancy simulation.

This file gives a shallow embedding, over `ℚ` and `ℕ`, of the two
discrete-event simulation engines of the repository:

* `src/simulation.py` — the dashboard engine (`run_hospital_simulation`):
  balking admission policy on a bed counter, a single staff pool, three
  treatment-time scenarios, an occupancy log, and KPI post-processing;
* `src/assets/simulation.py` — the staffing engine: a bed resource plus two
  typed staff resources raced with `senior_req | junior_req`, and the
  workload-dependent service rate `mu_ideal * min(1, ALPHA*s/n)`.

Random draws (`np.random.exponential`, `np.random.rand`) are modelled by
passing the unit variate explicitly: `np.random.exponential(m)` is `m * draw`
for a draw `draw ≥ 0`, and `np.random.rand()` is a parameter `u`.

The patient lifecycle of the dashboard engine touches shared ward state
(`beds_in_use`, `occupancy_log`, `patient_log`) at exactly two kinds of
atomic instants: the arrival (balk check, bed acquisition, occupancy append)
and the treatment end (bed release, occupancy append, discharge record).
The cooperative scheduler interleaves patients only at suspension points, so
every run of the Python program is a sequence of these atomic steps in which
a patient finishes only after having been admitted.  We model runs as lists
of `Step`s and restrict to such sequences with the decidable `validFrom`.
-/

namespace HospitalSim

/-- MINS_IN_DAY = 24 * 60 (src/simulation.py line 6). -/
def MINS_IN_DAY : ℚ := 24 * 60

/-- The `params` dictionary consumed by `run_hospital_simulation`
(src/simulation.py): scenario selector, arrival rate (patients/day),
staff and bed capacities, per-type service means in days, senior staff mix
in percent, workload factor alpha, and the simulated duration in days. -/
structure Params where
  scenario : String
  arrivalRate : ℚ
  numStaff : ℕ
  numBeds : ℕ
  seniorServiceDays : ℚ
  juniorServiceDays : ℚ
  seniorStaffMix : ℚ
  workloadAlpha : ℚ
  simulationDuration : ℚ
deriving DecidableEq

/-- Embedding of `Hospital.get_treatment_time` (src/simulation.py lines 62-89),
returning the scale (mean, in minutes) handed to `np.random.exponential`;
the drawn treatment time is this mean times a unit-exponential variate.
`u` stands for the `np.random.rand()` draw of the heterogeneous branch and
`staffUsers` for `len(self.staff.users)` of the workload branch.  An
unrecognized scenario falls through to `return 0`. -/
def getTreatmentMean (p : Params) (u : ℚ) (staffUsers : ℕ) : ℚ :=
  if p.scenario = "Baseline Model (Homogeneous Staff)" then
    p.seniorServiceDays * MINS_IN_DAY
  else if p.scenario = "Experience-Based Model (Heterogeneous Staff)" then
    if u < p.seniorStaffMix / 100 then p.seniorServiceDays * MINS_IN_DAY
    else p.juniorServiceDays * MINS_IN_DAY
  else if p.scenario = "Workload-Dependent Model (Dynamic Service Rates)" then
    let patientsPerStaff : ℚ := (staffUsers : ℚ) / (p.numStaff : ℚ)
    (p.seniorServiceDays * MINS_IN_DAY) *
      (if patientsPerStaff > p.workloadAlpha then
        1 + (patientsPerStaff - p.workloadAlpha)
      else 1)
  else 0

/-- One row of `patient_log` (src/simulation.py lines 32-36 and 56-60).
`np.nan` fields of balked rows are modelled as `none`; times are in minutes. -/
structure Rec where
  patientId : String
  arrivalTime : ℚ
  waitTime : Option ℚ
  treatmentTime : Option ℚ
  totalTime : Option ℚ
  status : String
  treatedBy : String
deriving DecidableEq

/-- The balked record appended at arrival when the ward is full
(src/simulation.py lines 32-36). -/
def balkRec (name : String) (t : ℚ) : Rec :=
  { patientId := name, arrivalTime := t, waitTime := none, treatmentTime := none,
    totalTime := none, status := "Balked (No Beds)", treatedBy := "N/A" }

/-- The discharge record appended at treatment end
(src/simulation.py lines 56-60); `TreatedBy` is the hardcoded `'Staff'`. -/
def dischargeRec (name : String) (arrival wait treat now : ℚ) : Rec :=
  { patientId := name, arrivalTime := arrival, waitTime := some wait,
    treatmentTime := some treat, totalTime := some (now - arrival),
    status := "Discharged", treatedBy := "Staff" }

/-- The two atomic instants at which a dashboard-engine patient process
mutates shared ward state: its arrival (lines 27-40) and its treatment end
(lines 52-60).  `wait` and `treat` carry the values of `wait_time` and
`treatment_time` that the run determined for this patient. -/
inductive Step where
  | arrive (name : String) (t : ℚ)
  | finish (name : String) (wait treat t : ℚ)
deriving DecidableEq

/-- The shared state of one `Hospital` instance: `beds_in_use`, the set of
admitted patients still holding a bed (with their arrival times), the
`occupancy_log` of `(time, beds_in_use)` samples and the `patient_log`. -/
structure WardState where
  bedsInUse : ℕ
  admitted : List (String × ℚ)
  occLog : List (ℚ × ℕ)
  log : List Rec
deriving DecidableEq

/-- The state built by `Hospital.__init__` (src/simulation.py lines 21-25). -/
def initWard : WardState :=
  { bedsInUse := 0, admitted := [], occLog := [], log := [] }

/-- Arrival time recorded for an admitted patient. -/
def lookupArr (l : List (String × ℚ)) (name : String) : ℚ :=
  ((l.find? fun q => q.1 == name).getD (name, 0)).2

/-- Remove the first admitted entry of the given patient. -/
def removeNamed (l : List (String × ℚ)) (name : String) : List (String × ℚ) :=
  match l with
  | [] => []
  | q :: rest => if q.1 == name then rest else q :: removeNamed rest name

/-- Effect of one atomic patient step on ward state.  The arrival branch is
src/simulation.py lines 31-40: balk (append a terminal record, touch nothing
else) iff `beds_in_use >= bed_capacity`, otherwise increment `beds_in_use`
and append an occupancy sample.  The finish branch is lines 52-60: decrement
`beds_in_use`, append an occupancy sample, append the discharge record. -/
def doStep (cap : ℕ) (s : WardState) : Step → WardState
  | .arrive name t =>
    if s.bedsInUse ≥ cap then
      { s with log := s.log ++ [balkRec name t] }
    else
      { s with bedsInUse := s.bedsInUse + 1,
               admitted := s.admitted ++ [(name, t)],
               occLog := s.occLog ++ [(t, s.bedsInUse + 1)] }
  | .finish name wait treat t =>
    { bedsInUse := s.bedsInUse - 1,
      admitted := removeNamed s.admitted name,
      occLog := s.occLog ++ [(t, s.bedsInUse - 1)],
      log := s.log ++ [dischargeRec name (lookupArr s.admitted name) wait treat t] }

/-- A step is schedulable in a state: an arrival always is, a treatment end
only for a patient currently holding a bed (in the Python program the finish
step is the tail of the very process that was admitted earlier). -/
def okStep (s : WardState) : Step → Bool
  | .arrive _ _ => true
  | .finish name _ _ _ => s.admitted.any fun q => q.1 == name

/-- Decidable validity of a step sequence from a given state: every step is
schedulable when it fires.  Runs of the Python engine are exactly such
sequences started from `initWard`. -/
def validFrom (cap : ℕ) (s : WardState) : List Step → Bool
  | [] => true
  | st :: rest => okStep s st && validFrom cap (doStep cap s st) rest

/-- Execute a step sequence. -/
def runSteps (cap : ℕ) (s : WardState) : List Step → WardState
  | [] => s
  | st :: rest => runSteps cap (doStep cap s st) rest

/-- Substring test on character lists: does the haystack start with the needle? -/
def beginsWith : List Char → List Char → Bool
  | _, [] => true
  | [], _ :: _ => false
  | a :: as, b :: bs => a == b && beginsWith as bs

/-- Substring containment on character lists. -/
def containsSub : List Char → List Char → Bool
  | [], pat => pat.isEmpty
  | l@(_ :: t), pat => beginsWith l pat || containsSub t pat

/-- Embedding of `patient_log_df['Status'].str.contains('Balked')`
(src/simulation.py line 119). -/
def containsBalked (s : String) : Bool :=
  containsSub s.data "Balked".data

/-- Embedding of `patient_log_df.dropna(subset=['WaitTime'])`
(src/simulation.py line 123): the rows with a non-null `WaitTime`. -/
def treatedOf (log : List Rec) : List Rec :=
  log.filter fun r => r.waitTime.isSome

/-- The per-interval accumulation of `total_patient_minutes`
(src/simulation.py lines 135-139): starting from `last_time = 0`, each
sample `(Time, PatientsInSystem)` contributes `PatientsInSystem *
(Time - last_time)` and advances `last_time` to its own time. -/
def totalPatientMinutes : ℚ → List (ℚ × ℕ) → ℚ
  | _, [] => 0
  | lastTime, (t, c) :: rest => (c : ℚ) * (t - lastTime) + totalPatientMinutes t rest

/-- The `'Average Bed Occupancy (%)'` KPI (src/simulation.py lines 133-144):
zero for an empty series; otherwise the accumulated patient-minutes divided
by the total simulated minutes (guarded against a non-positive duration),
divided by the bed count (guarded against zero beds) and scaled to percent. -/
def avgBedOccupancyPct (occ : List (ℚ × ℕ)) (duration : ℚ) (numBeds : ℕ) : ℚ :=
  if occ = [] then 0
  else
    let totalMinutes := duration * MINS_IN_DAY
    let avgPatients := if 0 < totalMinutes then totalPatientMinutes 0 occ / totalMinutes else 0
    if 0 < numBeds then avgPatients / (numBeds : ℚ) * 100 else 0

/-- The KPI mapping returned by `run_hospital_simulation`
(src/simulation.py lines 115-144). -/
structure KPIs where
  blockingProbabilityPct : ℚ
  avgWaitDays : ℚ
  avgLengthOfStayDays : ℚ
  patientsServed : ℕ
  avgBedOccupancyPctKPI : ℚ
deriving DecidableEq

/-- Embedding of the KPI post-processing (src/simulation.py lines 106-144).
The dataframe's division of the three time columns by `MINS_IN_DAY`
(lines 111-113) is folded into the means, which otherwise run over the
record fields in minutes. -/
def computeKPIs (log : List Rec) (occ : List (ℚ × ℕ)) (duration : ℚ) (numBeds : ℕ) : KPIs :=
  let totalArrivals := log.length
  let blocking : ℚ :=
    if 0 < totalArrivals then
      (((log.filter fun r => containsBalked r.status).length : ℚ) / (totalArrivals : ℚ)) * 100
    else 0
  let treated := treatedOf log
  let avgW : ℚ :=
    if treated = [] then 0
    else ((treated.map fun r => r.waitTime.getD 0 / MINS_IN_DAY).sum) / (treated.length : ℚ)
  let avgL : ℚ :=
    if treated = [] then 0
    else ((treated.map fun r => r.totalTime.getD 0 / MINS_IN_DAY).sum) / (treated.length : ℚ)
  { blockingProbabilityPct := blocking,
    avgWaitDays := avgW,
    avgLengthOfStayDays := avgL,
    patientsServed := treated.length,
    avgBedOccupancyPctKPI := avgBedOccupancyPct occ duration numBeds }

/-- Modelled from the claim of C1 (spec §4.5): piecewise-constant integration
of the occupancy series in which each interval between consecutive samples
contributes the earlier sample's count times the interval length. -/
def claimPairwiseEarlierSum : List (ℚ × ℕ) → ℚ
  | (t₁, c₁) :: (t₂, c₂) :: rest => (c₁ : ℚ) * (t₂ - t₁) + claimPairwiseEarlierSum ((t₂, c₂) :: rest)
  | _ => 0

/-- Modelled from the claim of C1: the time-weighted average occupancy as the
claim states it, the right-continuous step integral divided by the horizon. -/
def claimAvgOccupancy (occ : List (ℚ × ℕ)) (horizonMinutes : ℚ) : ℚ :=
  claimPairwiseEarlierSum occ / horizonMinutes

/-! ### The staffing engine, src/assets/simulation.py -/

/-- ALPHA = 1.0 (src/assets/simulation.py line 24). -/
def ALPHA : ℚ := 1

/-- NUM_SENIOR_STAFF = 7 (line 17). -/
def NUM_SENIOR_STAFF : ℕ := 7

/-- NUM_JUNIOR_STAFF = 8 (line 18). -/
def NUM_JUNIOR_STAFF : ℕ := 8

/-- AVG_TREATMENT_TIME_SENIOR_MINUTES = 2.5 * 24 * 60 (line 13). -/
def AVG_TREATMENT_TIME_SENIOR_MINUTES : ℚ := 2.5 * 24 * 60

/-- AVG_TREATMENT_TIME_JUNIOR_MINUTES = 3.5 * 24 * 60 (line 14). -/
def AVG_TREATMENT_TIME_JUNIOR_MINUTES : ℚ := 3.5 * 24 * 60

/-- A `simpy.Resource`: fixed capacity, the number of granted units currently
held (`len(resource.users)`), and the number of queued pending requests. -/
structure Pool where
  capacity : ℕ
  users : ℕ
  queue : ℕ
deriving DecidableEq

/-- `resource.request()` in simpy: the request is granted synchronously when
a unit is free (`users < capacity`), otherwise it joins the wait queue and
stays pending.  Returns the updated pool and whether the request was granted
at issue time. -/
def Pool.request (p : Pool) : Pool × Bool :=
  if p.users < p.capacity then ({ p with users := p.users + 1 }, true)
  else ({ p with queue := p.queue + 1 }, false)

/-- `resource.release(req)` in simpy: the unit is returned and, when the wait
queue is non-empty, immediately handed to the queue head. -/
def Pool.release (p : Pool) : Pool :=
  let p' : Pool := { p with users := p.users - 1 }
  if 0 < p'.queue then { p' with users := p'.users + 1, queue := p'.queue - 1 } else p'

/-- The two staff types of the staffing engine. -/
inductive StaffType where
  | senior
  | junior
deriving DecidableEq

/-- Outcome of the staff race (src/assets/simulation.py lines 45-62) in the
case where at least one pool has a free unit, so that the condition
`senior_req | junior_req` fires at the very instant the requests are issued.
Both requests are issued unconditionally; the branch then picks Senior
exactly when the senior request is among the fired events
(`if senior_req in result`). -/
structure RaceOutcome where
  seniorPool : Pool
  juniorPool : Pool
  seniorGranted : Bool
  juniorGranted : Bool
  choice : StaffType
deriving DecidableEq

/-- Issue `senior_req = staff_senior.request()` then
`junior_req = staff_junior.request()` and resolve the race as the code does
when a request is granted at issue time (lines 45-62). -/
def staffRace (sen jun : Pool) : RaceOutcome :=
  let senR := sen.request
  let junR := jun.request
  { seniorPool := senR.1, juniorPool := junR.1,
    seniorGranted := senR.2, juniorGranted := junR.2,
    choice := if senR.2 then StaffType.senior else StaffType.junior }

/-- `staff_resource.release(staff_req_to_release)` at discharge (line 78):
only the pool whose request the patient chose is released; the patient
process performs no other release. -/
def dischargeRelease (r : RaceOutcome) : Pool × Pool :=
  match r.choice with
  | StaffType.senior => (r.seniorPool.release, r.juniorPool)
  | StaffType.junior => (r.seniorPool, r.juniorPool.release)

/-- The `mu_ideal` constant selected in each branch of the race dispatch
(lines 56 and 62). -/
def muIdealOf : StaffType → ℚ
  | StaffType.senior => 1 / AVG_TREATMENT_TIME_SENIOR_MINUTES
  | StaffType.junior => 1 / AVG_TREATMENT_TIME_JUNIOR_MINUTES

/-- The staff type and `mu_ideal` assigned by the branch on
`senior_req in result` (lines 52-62). -/
structure StaffAssign where
  staffType : StaffType
  muIdeal : ℚ
deriving DecidableEq

/-- Branch dispatch of lines 52-62, keyed on whether the senior request was
among the fired events. -/
def assignFromRace (seniorGranted : Bool) : StaffAssign :=
  if seniorGranted then
    { staffType := StaffType.senior, muIdeal := 1 / AVG_TREATMENT_TIME_SENIOR_MINUTES }
  else
    { staffType := StaffType.junior, muIdeal := 1 / AVG_TREATMENT_TIME_JUNIOR_MINUTES }

/-- The workload-degraded service rate (src/assets/simulation.py lines 66-71):
`n = hospital['beds'].count` clamped to at least 1, `s` the total staff
headcount, `mu_actual = mu_ideal * min(1, ALPHA * s / n)`. -/
def muActual (muIdeal : ℚ) (bedsCount : ℕ) : ℚ :=
  let n : ℕ := if bedsCount = 0 then 1 else bedsCount
  muIdeal * min 1 (ALPHA * ((NUM_SENIOR_STAFF : ℚ) + (NUM_JUNIOR_STAFF : ℚ)) / (n : ℚ))

/-- One row of the staffing engine's `patient_log` for a discharged patient
(src/assets/simulation.py lines 83-89). -/
structure ARecord where
  name : String
  arrivalTime : ℚ
  waitedForBed : ℚ
  waitedForStaff : ℚ
  treatmentDuration : ℚ
  staffType : StaffType
  status : String
deriving DecidableEq

/-- The treatment segment of the staffing engine's patient process
(lines 66-89): compute `mu_actual` from the assigned type's `mu_ideal` and
the bed count at the instant treatment begins, draw the duration
(`np.random.exponential(1.0/mu_actual)` is `(1/mu_actual) * draw`), and build
the discharge log row, whose `staff_type` is the assigned type. -/
def treatAndLog (name : String) (arrival bedAssign staffAssign : ℚ) (seniorGranted : Bool)
    (bedsCount : ℕ) (draw : ℚ) : ℚ × ARecord :=
  let a := assignFromRace seniorGranted
  let duration := 1 / muActual a.muIdeal bedsCount * draw
  (duration,
    { name := name, arrivalTime := arrival,
      waitedForBed := bedAssign - arrival,
      waitedForStaff := staffAssign - bedAssign,
      treatmentDuration := staffAssign + duration - staffAssign,
      staffType := a.staffType, status := "Discharged" })

/-- Modelled from the claim of C3: the effective service rate the claim
states, `mu_ideal * min(1, alpha * s / n)` with the occupancy `n` clamped to
at least 1. -/
def claimWorkloadRate (muIdeal alpha : ℚ) (s n : ℕ) : ℚ :=
  muIdeal * min 1 (alpha * (s : ℚ) / (((if n = 0 then 1 else n : ℕ)) : ℚ))

/-! ### The scheduler's event ordering

The simpy scheduler keeps a heap of events keyed by `(due_time, event_id)`
with a monotonically increasing event id, so events due at the same instant
fire in scheduling order and the firing order is a function of the event set
alone.  We model an event as its due time, its sequence id and the ward step
its continuation performs, and the scheduler as sorting by the key. -/

/-- A scheduled event: due time, scheduling sequence number, and the atomic
ward step its process performs when resumed. -/
structure Event where
  due : ℚ
  seq : ℕ
  step : Step
deriving DecidableEq

/-- The scheduler's ordering key. -/
def eventKey (e : Event) : ℚ × ℕ := (e.due, e.seq)

/-- The scheduler's order: earlier due time first, ties broken by the
scheduling sequence number. -/
def eventLe (a b : Event) : Prop :=
  a.due < b.due ∨ (a.due = b.due ∧ a.seq ≤ b.seq)

instance : DecidableRel eventLe := fun a b => by
  unfold eventLe
  infer_instance

instance : IsTotal Event eventLe := by
  constructor
  intro a b
  unfold eventLe
  rcases lt_trichotomy a.due b.due with h | h | h
  · exact Or.inl (Or.inl h)
  · rcases le_total a.seq b.seq with hs | hs
    · exact Or.inl (Or.inr ⟨h, hs⟩)
    · exact Or.inr (Or.inr ⟨h.symm, hs⟩)
  · exact Or.inr (Or.inl h)

instance : IsTrans Event eventLe := by
  constructor
  intro a b c hab hbc
  unfold eventLe at *
  rcases hab with h₁ | ⟨h₁, s₁⟩
  · rcases hbc with h₂ | ⟨h₂, _⟩
    · exact Or.inl (h₁.trans h₂)
    · exact Or.inl (h₂ ▸ h₁)
  · rcases hbc with h₂ | ⟨h₂, s₂⟩
    · exact Or.inl (h₁ ▸ h₂)
    · exact Or.inr ⟨h₁.trans h₂, s₁.trans s₂⟩

/-- The order in which the scheduler fires a set of pending events. -/
def fireOrder (q : List Event) : List Event :=
  q.insertionSort eventLe

/-! ### Helper lemmas -/

/-- Relation between two consecutive occupancy samples: the count moved by
exactly one admission or one discharge. -/
def stepRel (a b : ℚ × ℕ) : Prop :=
  b.2 = a.2 + 1 ∨ a.2 = b.2 + 1

/-- Run invariant of the dashboard ward: `beds_in_use` counts the admitted
patients, stays within capacity, every logged occupancy count is within
capacity, the last logged count is the current `beds_in_use`, and
consecutive logged counts differ by exactly one. -/
def WardInv (cap : ℕ) (s : WardState) : Prop :=
  s.bedsInUse = s.admitted.length ∧
  s.bedsInUse ≤ cap ∧
  (∀ e ∈ s.occLog, e.2 ≤ cap) ∧
  (∀ x ∈ s.occLog.getLast?, x.2 = s.bedsInUse) ∧
  List.Chain' stepRel s.occLog

lemma wardInv_init (cap : ℕ) : WardInv cap initWard := by
  refine ⟨rfl, Nat.zero_le _, ?_, ?_, ?_⟩ <;> simp [initWard]

lemma removeNamed_length : ∀ {l : List (String × ℚ)} {name : String},
    (l.any fun q => q.1 == name) = true → (removeNamed l name).length + 1 = l.length := by
  intro l
  induction l with
  | nil => intro name h; simp at h
  | cons q rest ih =>
    intro name h
    by_cases hq : (q.1 == name) = true
    · simp [removeNamed, hq]
    · simp only [List.any_cons, Bool.or_eq_true] at h
      rcases h with h | h
      · exact absurd h hq
      · have := ih h
        simp only [removeNamed]
        rw [if_neg hq]
        simp only [List.length_cons]
        omega

lemma getLast?_append_singleton {α : Type} (l : List α) (a : α) :
    (l ++ [a]).getLast? = some a := by
  rw [List.getLast?_append_cons]
  rfl

lemma wardInv_doStep {cap : ℕ} {s : WardState} {st : Step}
    (h : WardInv cap s) (hok : okStep s st = true) : WardInv cap (doStep cap s st) := by
  obtain ⟨h1, h0, h2, h3, h4⟩ := h
  cases st with
  | arrive name t =>
    by_cases hfull : s.bedsInUse ≥ cap
    · simpa only [doStep, if_pos hfull] using ⟨h1, h0, h2, h3, h4⟩
    · push_neg at hfull
      simp only [doStep, if_neg (not_le.mpr hfull)]
      refine ⟨by simp [h1], hfull, ?_, ?_, ?_⟩
      · intro e he
        rcases List.mem_append.mp he with he | he
        · exact h2 e he
        · simp only [List.mem_singleton] at he
          subst he
          exact hfull
      · intro x hx
        rw [getLast?_append_singleton] at hx
        simp only [Option.mem_def, Option.some.injEq] at hx
        subst hx
        rfl
      · rw [List.chain'_append]
        refine ⟨h4, List.chain'_singleton _, ?_⟩
        intro x hx y hy
        simp only [List.head?_cons, Option.mem_def, Option.some.injEq] at hy
        subst hy
        exact Or.inl (by rw [h3 x hx])
  | finish name wait treat t =>
    simp only [okStep] at hok
    have hlen := @removeNamed_length s.admitted name hok
    have hpos : 1 ≤ s.bedsInUse := by
      rw [h1, ← hlen]
      exact Nat.le_add_left 1 _
    simp only [doStep]
    refine ⟨?_, ?_, ?_, ?_, ?_⟩
    · simp only
      omega
    · exact le_trans (Nat.sub_le _ _) h0
    · intro e he
      rcases List.mem_append.mp he with he | he
      · exact h2 e he
      · simp only [List.mem_singleton] at he
        subst he
        exact le_trans (Nat.sub_le _ _) h0
    · intro x hx
      rw [getLast?_append_singleton] at hx
      simp only [Option.mem_def, Option.some.injEq] at hx
      subst hx
      rfl
    · rw [List.chain'_append]
      refine ⟨h4, List.chain'_singleton _, ?_⟩
      intro x hx y hy
      simp only [List.head?_cons, Option.mem_def, Option.some.injEq] at hy
      subst hy
      refine Or.inr ?_
      rw [h3 x hx]
      simp only
      omega

lemma wardInv_runSteps {cap : ℕ} : ∀ (steps : List Step) (s : WardState),
    WardInv cap s → validFrom cap s steps = true → WardInv cap (runSteps cap s steps) := by
  intro steps
  induction steps with
  | nil => intro s h _; exact h
  | cons st rest ih =>
    intro s h hv
    simp only [validFrom, Bool.and_eq_true] at hv
    exact ih _ (wardInv_doStep h hv.1) hv.2

lemma cap0_run : ∀ (steps : List Step) (s : WardState),
    s.admitted = [] → (∀ r ∈ s.log, r.status = "Balked (No Beds)") →
    validFrom 0 s steps = true →
    (runSteps 0 s steps).admitted = [] ∧
    ∀ r ∈ (runSteps 0 s steps).log, r.status = "Balked (No Beds)" := by
  intro steps
  induction steps with
  | nil => intro s ha hl _; exact ⟨ha, hl⟩
  | cons st rest ih =>
    intro s ha hl hv
    simp only [validFrom, Bool.and_eq_true] at hv
    cases st with
    | arrive name t =>
      refine ih _ ?_ ?_ hv.2
      · simp [doStep, Nat.zero_le]
        exact ha
      · simp only [doStep, if_pos (Nat.zero_le s.bedsInUse : s.bedsInUse ≥ 0)]
        intro r hr
        rcases List.mem_append.mp hr with hr | hr
        · exact hl r hr
        · simp only [List.mem_singleton] at hr
          subst hr
          rfl
    | finish name wait treat t =>
      exfalso
      have := hv.1
      simp only [okStep, ha, List.any_nil] at this
      exact Bool.false_ne_true this

lemma eventLe_key_eq {a b : Event} (h₁ : eventLe a b) (h₂ : eventLe b a) :
    eventKey a = eventKey b := by
  unfold eventLe at h₁ h₂
  unfold eventKey
  rcases h₁ with h | ⟨hd, hs⟩
  · rcases h₂ with h' | ⟨hd', _⟩
    · exact absurd h' (lt_asymm h)
    · exact absurd h (by rw [← hd']; exact lt_irrefl _)
  · rcases h₂ with h' | ⟨_, hs'⟩
    · exact absurd h' (by rw [hd]; exact lt_irrefl _)
    · simp [Prod.ext_iff, hd, le_antisymm hs hs']

lemma sorted_eq_of_perm_of_nodupKeys : ∀ {l₁ l₂ : List Event},
    l₁.Sorted eventLe → l₂.Sorted eventLe → l₁.Perm l₂ →
    (l₁.map eventKey).Nodup → l₁ = l₂ := by
  intro l₁
  induction l₁ with
  | nil =>
    intro l₂ _ _ hp _
    exact (hp.symm.eq_nil).symm
  | cons a t₁ ih =>
    intro l₂ hs₁ hs₂ hp hn
    cases l₂ with
    | nil => exact absurd hp.eq_nil (List.cons_ne_nil a t₁)
    | cons b t₂ =>
      by_cases hba : b = a
      · subst hba
        have ht : t₁.Perm t₂ := hp.cons_inv
        have := ih hs₁.of_cons hs₂.of_cons ht (by
          simp only [List.map_cons, List.nodup_cons] at hn
          exact hn.2)
        rw [this]
      · have hbt₁ : b ∈ t₁ := by
          have hb : b ∈ a :: t₁ := hp.symm.subset (List.mem_cons_self b t₂)
          rcases List.mem_cons.mp hb with h | h
          · exact absurd h hba
          · exact h
        have hat₂ : a ∈ t₂ := by
          have hamem : a ∈ b :: t₂ := hp.subset (List.mem_cons_self a t₁)
          rcases List.mem_cons.mp hamem with h | h
          · exact absurd h.symm hba
          · exact h
        have hle₁ : eventLe a b := List.rel_of_sorted_cons hs₁ b hbt₁
        have hle₂ : eventLe b a := List.rel_of_sorted_cons hs₂ a hat₂
        have hkey : eventKey a = eventKey b := eventLe_key_eq hle₁ hle₂
        exfalso
        simp only [List.map_cons, List.nodup_cons] at hn
        exact hn.1 (hkey ▸ List.mem_map_of_mem eventKey hbt₁)

/-! ### Concrete inputs used by counterexamples and witnesses -/

/-- A two-step run with one bed: one patient arrives at minute 1 and
finishes treatment at minute 3. -/
def demoSteps : List Step :=
  [Step.arrive "P1" 1, Step.finish "P1" 0 2 3]

/-- A configuration whose scenario string matches none of the three
recognized scenarios; the numeric fields are all well-formed. -/
def unknownScenarioParams : Params :=
  { scenario := "Seasonal Surge Model", arrivalRate := 6, numStaff := 2, numBeds := 20,
    seniorServiceDays := 2.5, juniorServiceDays := 3.5, seniorStaffMix := 60,
    workloadAlpha := 1, simulationDuration := 7 }

/-- A workload-dependent configuration with one staff member, a senior
service mean of one minute and alpha one half. -/
def workloadParams : Params :=
  { scenario := "Workload-Dependent Model (Dynamic Service Rates)", arrivalRate := 6,
    numStaff := 1, numBeds := 20, seniorServiceDays := 1 / 1440, juniorServiceDays := 1 / 1440,
    seniorStaffMix := 50, workloadAlpha := 1 / 2, simulationDuration := 7 }

/-- A heterogeneous-staff configuration with a zero percent senior mix. -/
def heteroParams : Params :=
  { scenario := "Experience-Based Model (Heterogeneous Staff)", arrivalRate := 6,
    numStaff := 2, numBeds := 20, seniorServiceDays := 5 / 2, juniorServiceDays := 7 / 2,
    seniorStaffMix := 0, workloadAlpha := 1, simulationDuration := 7 }

/-- Two scheduled events due at the same instant with distinct sequence ids. -/
def ev1 : Event :=
  { due := 0, seq := 0, step := Step.arrive "P1" 0 }

/-- Second demo event, same due time, later sequence id. -/
def ev2 : Event :=
  { due := 0, seq := 1, step := Step.finish "P1" 0 2 2 }

/-! ### Claim theorems -/

/-- Claim C1: the claim states that the time-weighted average occupancy KPI
equals the integral of the right-continuous occupancy step function divided
by the horizon, each inter-sample interval contributing the earlier sample's
count, and utilization is that average divided by bed capacity.  The code
(src/simulation.py lines 133-144) instead multiplies each interval by the
LATER sample's count (the count that only takes force at the interval's right
endpoint) and drops the tail after the last sample.  On the reachable run
with one bed, admission at minute 1 and discharge at minute 3 over a
4-minute horizon, the code reports 25 percent while the claim's integral
gives 50 percent. -/
theorem C1_avg_occupancy_integration_bug :
    validFrom 1 initWard demoSteps = true ∧
    (runSteps 1 initWard demoSteps).occLog = [(1, 1), (3, 0)] ∧
    avgBedOccupancyPct [(1, 1), (3, 0)] (1 / 360) 1 = 25 ∧
    claimAvgOccupancy [(1, 1), (3, 0)] (1 / 360 * MINS_IN_DAY) / 1 * 100 = 50 ∧
    (25 : ℚ) ≠ 50 := by
  refine ⟨by decide, by decide, ?_, ?_, by norm_num⟩
  · rw [avgBedOccupancyPct, if_neg (by simp)]
    norm_num [totalPatientMinutes, MINS_IN_DAY]
  · norm_num [claimAvgOccupancy, claimPairwiseEarlierSum, MINS_IN_DAY]

/-- Claim C2: the claim states that the losing request of the staffing race
is withdrawn once the winner is granted and that no granted staff unit is
retained beyond the patient's discharge.  In the code
(src/assets/simulation.py lines 45-62 and 78) the raced requests are issued
with bare `request()` calls: when both pools have a free unit — the initial
state of the shipped configuration, senior capacity 7 and junior capacity 8 —
BOTH requests are granted at issue time, the branch selects Senior, and at
discharge only the senior request is released; the granted junior unit is
never released by anything in the patient process, permanently shrinking the
junior pool.  The code's own comment claims simpy cancels the other request
automatically, which is false. -/
theorem C2_staff_race_leak :
    (staffRace { capacity := 7, users := 0, queue := 0 }
        { capacity := 8, users := 0, queue := 0 }).seniorGranted = true ∧
    (staffRace { capacity := 7, users := 0, queue := 0 }
        { capacity := 8, users := 0, queue := 0 }).juniorGranted = true ∧
    (staffRace { capacity := 7, users := 0, queue := 0 }
        { capacity := 8, users := 0, queue := 0 }).choice = StaffType.senior ∧
    (dischargeRelease (staffRace { capacity := 7, users := 0, queue := 0 }
        { capacity := 8, users := 0, queue := 0 })).1.users = 0 ∧
    (dischargeRelease (staffRace { capacity := 7, users := 0, queue := 0 }
        { capacity := 8, users := 0, queue := 0 })).2.users = 1 := by
  decide

/-- Claim C3, counterexample: in the dashboard engine's workload-dependent
scenario (src/simulation.py lines 78-87) the effective rate is
`mu_ideal / (1 + max(0, users/num_staff - alpha))`, driven by the staff
pool's user count, not `mu_ideal * min(1, alpha*s/n)` driven by bed
occupancy as the claim states: with one staff member, one user, alpha one
half and one occupied bed the code's rate is 2/3 of ideal while the claim's
formula gives 1/2. -/
theorem C3_workload_rate_counterexample :
    1 / getTreatmentMean workloadParams 0 1 = 2 / 3 ∧
    claimWorkloadRate 1 (1 / 2) 1 1 = 1 / 2 ∧
    (2 / 3 : ℚ) ≠ 1 / 2 := by
  refine ⟨?_, ?_, by norm_num⟩
  · have h : getTreatmentMean workloadParams 0 1 = 3 / 2 := by
      simp only [getTreatmentMean, workloadParams]
      rw [if_neg (by decide), if_neg (by decide)]
      norm_num [MINS_IN_DAY]
    rw [h]
    norm_num
  · norm_num [claimWorkloadRate, min_def]

/-- Claim C3, amended: in the staffing engine (src/assets/simulation.py
lines 66-72) the effective rate is exactly `mu_ideal * min(1, ALPHA*s/n)`
with the bed count clamped to at least one; it never exceeds the ideal rate,
and equals it whenever `ALPHA*s` is at least the clamped occupancy.  In the
dashboard engine's workload scenario the treatment mean is instead the base
mean scaled by `1 + max(0, users/num_staff - alpha)`; that mean is never
below the base mean (so the rate never exceeds the ideal rate), and equals
the base mean whenever the staff user count is within `alpha * num_staff`. -/
theorem C3_workload_rate_amended (μ : ℚ) (n : ℕ) (p : Params) (users : ℕ) (u : ℚ)
    (hμ : 0 ≤ μ)
    (hsc : p.scenario = "Workload-Dependent Model (Dynamic Service Rates)")
    (hstaff : 0 < p.numStaff) (hbase : 0 ≤ p.seniorServiceDays) :
    muActual μ n ≤ μ ∧
    ((((if n = 0 then 1 else n : ℕ)) : ℚ) ≤
        ALPHA * ((NUM_SENIOR_STAFF : ℚ) + (NUM_JUNIOR_STAFF : ℚ)) →
      muActual μ n = μ) ∧
    p.seniorServiceDays * MINS_IN_DAY ≤ getTreatmentMean p u users ∧
    ((users : ℚ) ≤ p.workloadAlpha * (p.numStaff : ℚ) →
      getTreatmentMean p u users = p.seniorServiceDays * MINS_IN_DAY) := by
  have hmean : getTreatmentMean p u users =
      (p.seniorServiceDays * MINS_IN_DAY) *
        (if (users : ℚ) / (p.numStaff : ℚ) > p.workloadAlpha then
          1 + ((users : ℚ) / (p.numStaff : ℚ) - p.workloadAlpha)
        else 1) := by
    rw [getTreatmentMean, if_neg (by rw [hsc]; decide), if_neg (by rw [hsc]; decide),
      if_pos hsc]
  have hcast : (0 : ℚ) < (p.numStaff : ℚ) := by exact_mod_cast hstaff
  have hMID : (0 : ℚ) ≤ MINS_IN_DAY := by norm_num [MINS_IN_DAY]
  refine ⟨?_, ?_, ?_, ?_⟩
  · exact mul_le_of_le_one_right hμ (min_le_left _ _)
  · intro hn
    have hn' : (0 : ℚ) < (((if n = 0 then 1 else n : ℕ)) : ℚ) := by
      by_cases h0 : n = 0
      · simp [h0]
      · simp only [h0, if_false]
        exact_mod_cast Nat.pos_of_ne_zero h0
    rw [muActual]
    rw [min_eq_left ((one_le_div hn').mpr hn)]
    exact mul_one μ
  · rw [hmean]
    by_cases hcond : (users : ℚ) / (p.numStaff : ℚ) > p.workloadAlpha
    · rw [if_pos hcond]
      have : (1 : ℚ) ≤ 1 + ((users : ℚ) / (p.numStaff : ℚ) - p.workloadAlpha) := by
        linarith
      exact le_mul_of_one_le_right (by positivity) this
    · rw [if_neg hcond, mul_one]
  · intro husers
    have hle : (users : ℚ) / (p.numStaff : ℚ) ≤ p.workloadAlpha :=
      (div_le_iff₀ hcast).mpr (by linarith)
    rw [hmean, if_neg (not_lt.mpr hle), mul_one]

/-- Claim C4: a patient balks exactly when `beds_in_use >= bed_capacity` at
the instant of arrival (src/simulation.py line 31); a balking arrival only
appends its terminal record, touching neither `beds_in_use` nor the admitted
set nor the occupancy log — it never queues for a bed; a non-balking arrival
acquires exactly one bed.  With bed capacity zero, every valid run consists
of balked arrivals only: every logged record is a balked record and the log
holds zero Discharged records. -/
theorem C4_balking_policy (cap : ℕ) (s : WardState) (name : String) (t : ℚ)
    (steps : List Step) (hv : validFrom 0 initWard steps = true) :
    (cap ≤ s.bedsInUse →
      doStep cap s (Step.arrive name t) = { s with log := s.log ++ [balkRec name t] }) ∧
    (s.bedsInUse < cap →
      doStep cap s (Step.arrive name t) =
        { s with bedsInUse := s.bedsInUse + 1,
                 admitted := s.admitted ++ [(name, t)],
                 occLog := s.occLog ++ [(t, s.bedsInUse + 1)] }) ∧
    (∀ r ∈ (runSteps 0 initWard steps).log, r.status = "Balked (No Beds)") ∧
    (runSteps 0 initWard steps).log.filter (fun r => r.status == "Discharged") = [] := by
  have hc := cap0_run steps initWard rfl (by simp [initWard]) hv
  refine ⟨?_, ?_, hc.2, ?_⟩
  · intro h
    simp [doStep, h]
  · intro h
    simp [doStep, not_le.mpr h]
  · rw [List.filter_eq_nil_iff]
    intro r hr
    have hstat := hc.2 r hr
    simp [hstat]

/-- Claim C4, witness: with one bed, a single arrival at a zero-capacity ward
trace instantiates the theorem. -/
theorem C4_balking_policy_witness :
    validFrom 0 initWard [Step.arrive "P2" 5] = true ∧
    ((1 ≤ initWard.bedsInUse →
      doStep 1 initWard (Step.arrive "P1" 0) =
        { initWard with log := initWard.log ++ [balkRec "P1" 0] }) ∧
     (initWard.bedsInUse < 1 →
      doStep 1 initWard (Step.arrive "P1" 0) =
        { initWard with bedsInUse := initWard.bedsInUse + 1,
                        admitted := initWard.admitted ++ [("P1", 0)],
                        occLog := initWard.occLog ++ [(0, initWard.bedsInUse + 1)] }) ∧
     (∀ r ∈ (runSteps 0 initWard [Step.arrive "P2" 5]).log,
        r.status = "Balked (No Beds)") ∧
     (runSteps 0 initWard [Step.arrive "P2" 5]).log.filter
        (fun r => r.status == "Discharged") = []) :=
  ⟨by decide, C4_balking_policy 1 initWard "P1" 0 [Step.arrive "P2" 5] (by decide)⟩

/-- Claim C5: in every valid run, every occupancy sample's count is at most
the bed capacity (and, being a natural number, at least zero), and
consecutive samples' counts differ by exactly plus or minus one — each
sample records exactly one admission or one discharge
(src/simulation.py lines 39-54). -/
theorem C5_occupancy_series_invariant (cap : ℕ) (steps : List Step)
    (hv : validFrom cap initWard steps = true) :
    (∀ e ∈ (runSteps cap initWard steps).occLog, e.2 ≤ cap) ∧
    List.Chain' stepRel (runSteps cap initWard steps).occLog := by
  have h := wardInv_runSteps steps initWard (wardInv_init cap) hv
  exact ⟨h.2.2.1, h.2.2.2.2⟩

/-- Claim C5, witness: the one-bed demo run instantiates the theorem. -/
theorem C5_occupancy_series_invariant_witness :
    validFrom 1 initWard demoSteps = true ∧
    ((∀ e ∈ (runSteps 1 initWard demoSteps).occLog, e.2 ≤ 1) ∧
     List.Chain' stepRel (runSteps 1 initWard demoSteps).occLog) :=
  ⟨by decide, C5_occupancy_series_invariant 1 demoSteps (by decide)⟩

/-- Claim C6: determinism of replay.  The scheduler fires events in the
strict order of their `(due_time, sequence)` key (ties broken FIFO by the
monotonically increasing sequence id), so the firing order — and with it the
patient log and the occupancy series produced by executing the fired steps —
is a function of the scheduled event set alone.  Two runs with identical
configuration and seed schedule the same events, hence produce identical
logs and series. -/
theorem C6_deterministic_replay (cap : ℕ) (q₁ q₂ : List Event)
    (hp : q₁.Perm q₂) (hkeys : (q₁.map eventKey).Nodup) :
    fireOrder q₁ = fireOrder q₂ ∧
    (runSteps cap initWard ((fireOrder q₁).map Event.step)).log =
      (runSteps cap initWard ((fireOrder q₂).map Event.step)).log ∧
    (runSteps cap initWard ((fireOrder q₁).map Event.step)).occLog =
      (runSteps cap initWard ((fireOrder q₂).map Event.step)).occLog := by
  have hs₁ : (fireOrder q₁).Sorted eventLe := List.sorted_insertionSort eventLe q₁
  have hs₂ : (fireOrder q₂).Sorted eventLe := List.sorted_insertionSort eventLe q₂
  have hperm : (fireOrder q₁).Perm (fireOrder q₂) :=
    (List.perm_insertionSort eventLe q₁).trans
      (hp.trans (List.perm_insertionSort eventLe q₂).symm)
  have hkeys₁ : ((fireOrder q₁).map eventKey).Nodup :=
    (((List.perm_insertionSort eventLe q₁).map eventKey).nodup_iff).mpr hkeys
  have heq : fireOrder q₁ = fireOrder q₂ :=
    sorted_eq_of_perm_of_nodupKeys hs₁ hs₂ hperm hkeys₁
  exact ⟨heq, by rw [heq], by rw [heq]⟩

/-- Claim C6, witness: two queues holding the same two same-instant events in
opposite arrival order fire identically and produce identical logs. -/
theorem C6_deterministic_replay_witness :
    [ev1, ev2].Perm [ev2, ev1] ∧ ([ev1, ev2].map eventKey).Nodup ∧
    (fireOrder [ev1, ev2] = fireOrder [ev2, ev1] ∧
     (runSteps 1 initWard ((fireOrder [ev1, ev2]).map Event.step)).log =
       (runSteps 1 initWard ((fireOrder [ev2, ev1]).map Event.step)).log ∧
     (runSteps 1 initWard ((fireOrder [ev1, ev2]).map Event.step)).occLog =
       (runSteps 1 initWard ((fireOrder [ev2, ev1]).map Event.step)).occLog) :=
  ⟨List.Perm.swap ev2 ev1 [], by decide,
    C6_deterministic_replay 1 [ev1, ev2] [ev2, ev1] (List.Perm.swap ev2 ev1 []) (by decide)⟩

/-- Claim C7, counterexample: the engine performs no configuration
validation.  With a well-formed numeric configuration whose scenario string
is unrecognized, the run is not rejected: `get_treatment_time` silently
returns 0 (src/simulation.py line 89) and a patient lifecycle completes,
producing a non-empty patient log and occupancy series — contradicting the
claim that such a configuration is rejected before any simulation state is
created with no artifacts produced. -/
theorem C7_no_validation_counterexample :
    getTreatmentMean unknownScenarioParams 0 0 = 0 ∧
    validFrom unknownScenarioParams.numBeds initWard
      [Step.arrive "P1" 0, Step.finish "P1" 0 0 0] = true ∧
    (runSteps unknownScenarioParams.numBeds initWard
      [Step.arrive "P1" 0, Step.finish "P1" 0 0 0]).log = [dischargeRec "P1" 0 0 0 0] ∧
    (runSteps unknownScenarioParams.numBeds initWard
      [Step.arrive "P1" 0, Step.finish "P1" 0 0 0]).occLog = [(0, 1), (0, 0)] := by
  refine ⟨?_, by decide, rfl, rfl⟩
  simp only [getTreatmentMean, unknownScenarioParams]
  rw [if_neg (by decide), if_neg (by decide), if_neg (by decide)]

/-- Claim C7, amended: the engine performs no configuration validation.  An
unrecognized scenario is silently accepted: the treatment-time computation
returns zero and a run with free beds completes a patient lifecycle,
producing a patient log (a Discharged record with zero treatment time)
rather than rejecting the configuration; invalid numeric fields are likewise
not rejected before simulation state is created (at worst they surface as
runtime arithmetic failures from the random library once the run is under
way). -/
theorem C7_amended_no_rejection (p : Params) (u : ℚ) (users : ℕ)
    (h1 : p.scenario ≠ "Baseline Model (Homogeneous Staff)")
    (h2 : p.scenario ≠ "Experience-Based Model (Heterogeneous Staff)")
    (h3 : p.scenario ≠ "Workload-Dependent Model (Dynamic Service Rates)")
    (hbeds : 0 < p.numBeds) :
    getTreatmentMean p u users = 0 ∧
    validFrom p.numBeds initWard
      [Step.arrive "P1" 0, Step.finish "P1" 0 (getTreatmentMean p u users) 0] = true ∧
    (runSteps p.numBeds initWard
      [Step.arrive "P1" 0, Step.finish "P1" 0 (getTreatmentMean p u users) 0]).log =
      [dischargeRec "P1" 0 0 (getTreatmentMean p u users) 0] := by
  have hmean : getTreatmentMean p u users = 0 := by
    rw [getTreatmentMean, if_neg h1, if_neg h2, if_neg h3]
  have hnot : ¬(initWard.bedsInUse ≥ p.numBeds) := by
    simp only [initWard]
    omega
  have hz : p.numBeds ≠ 0 := Nat.pos_iff_ne_zero.mp hbeds
  refine ⟨hmean, ?_, ?_⟩
  · simp [validFrom, okStep, doStep, hnot, hz]
  · simp [runSteps, doStep, hnot, hz, lookupArr, removeNamed, initWard]

/-- Claim C7, witness for the amended theorem at the unrecognized-scenario
configuration. -/
theorem C7_amended_no_rejection_witness :
    unknownScenarioParams.scenario ≠ "Baseline Model (Homogeneous Staff)" ∧
    unknownScenarioParams.scenario ≠ "Experience-Based Model (Heterogeneous Staff)" ∧
    unknownScenarioParams.scenario ≠ "Workload-Dependent Model (Dynamic Service Rates)" ∧
    0 < unknownScenarioParams.numBeds ∧
    (getTreatmentMean unknownScenarioParams 0 0 = 0 ∧
     validFrom unknownScenarioParams.numBeds initWard
       [Step.arrive "P1" 0,
        Step.finish "P1" 0 (getTreatmentMean unknownScenarioParams 0 0) 0] = true ∧
     (runSteps unknownScenarioParams.numBeds initWard
       [Step.arrive "P1" 0,
        Step.finish "P1" 0 (getTreatmentMean unknownScenarioParams 0 0) 0]).log =
       [dischargeRec "P1" 0 0 (getTreatmentMean unknownScenarioParams 0 0) 0]) :=
  ⟨by decide, by decide, by decide, by decide,
    C7_amended_no_rejection unknownScenarioParams 0 0 (by decide) (by decide) (by decide)
      (by decide)⟩

/-- Claim C8: on a zero-arrival run — empty patient log and hence empty
occupancy series — the KPI computation succeeds and returns zero for the
blocking probability, the average wait, the average length of stay, the
served count and the average bed occupancy (src/simulation.py
lines 115-144), rather than a NaN or an error. -/
theorem C8_empty_run_kpis_zero (duration : ℚ) (numBeds : ℕ) :
    computeKPIs [] [] duration numBeds =
      { blockingProbabilityPct := 0, avgWaitDays := 0, avgLengthOfStayDays := 0,
        patientsServed := 0, avgBedOccupancyPctKPI := 0 } := by
  simp [computeKPIs, treatedOf, avgBedOccupancyPct]

/-- Claim C9, counterexample: in the dashboard engine's heterogeneous-staff
scenario (src/simulation.py lines 70-76) there is no staffing race at all —
a single undifferentiated staff pool — and the service mean is chosen by an
independent Bernoulli draw on `senior_staff_mix`: with a 0 percent mix the
junior mean is used regardless of any staffing state, the mean does not
depend on the staff-pool state, and every discharged record's `TreatedBy`
field is the hardcoded constant string Staff, which names no granted staff
type. -/
theorem C9_heterogeneous_rate_counterexample :
    getTreatmentMean heteroParams (1 / 2) 0 = 7 / 2 * MINS_IN_DAY ∧
    getTreatmentMean heteroParams (1 / 2) 5 = getTreatmentMean heteroParams (1 / 2) 0 ∧
    (dischargeRec "P1" 0 0 0 0).treatedBy = "Staff" ∧
    ("Staff" : String) ≠ "Senior" ∧ ("Staff" : String) ≠ "Junior" := by
  refine ⟨?_, rfl, rfl, by decide, by decide⟩
  simp only [getTreatmentMean, heteroParams]
  rw [if_neg (by decide)]
  norm_num

/-- Claim C9, amended: in the staffing engine (src/assets/simulation.py
lines 51-64) the claim holds — the `mu_ideal` used for the treatment draw is
the ideal rate of the staff type granted by the race, and that type is the
one recorded in the discharge record.  In the dashboard engine's
heterogeneous scenario the ideal mean is instead selected by an independent
Bernoulli draw against `senior_staff_mix` and every discharge record's
`TreatedBy` is the constant Staff. -/
theorem C9_heterogeneous_rate_amended (sg : Bool) (name : String)
    (arrival bedAssign staffAssign : ℚ) (bedsCount : ℕ) (draw : ℚ)
    (p : Params) (u : ℚ) (users : ℕ)
    (hs : p.scenario = "Experience-Based Model (Heterogeneous Staff)") :
    (assignFromRace sg).muIdeal = muIdealOf (assignFromRace sg).staffType ∧
    (treatAndLog name arrival bedAssign staffAssign sg bedsCount draw).2.staffType =
      (assignFromRace sg).staffType ∧
    (treatAndLog name arrival bedAssign staffAssign sg bedsCount draw).1 =
      1 / muActual (muIdealOf (assignFromRace sg).staffType) bedsCount * draw ∧
    getTreatmentMean p u users =
      (if u < p.seniorStaffMix / 100 then p.seniorServiceDays * MINS_IN_DAY
       else p.juniorServiceDays * MINS_IN_DAY) ∧
    (dischargeRec name arrival 0 0 0).treatedBy = "Staff" := by
  have h1 : (assignFromRace sg).muIdeal = muIdealOf (assignFromRace sg).staffType := by
    cases sg <;> simp [assignFromRace, muIdealOf]
  refine ⟨h1, rfl, ?_, ?_, rfl⟩
  · simp only [treatAndLog]
    rw [h1]
  · rw [getTreatmentMean, if_neg (by rw [hs]; decide), if_pos hs]

/-- Claim C9, witness for the amended theorem: senior granted, one occupied
bed, unit draw, and the heterogeneous configuration. -/
theorem C9_heterogeneous_rate_amended_witness :
    heteroParams.scenario = "Experience-Based Model (Heterogeneous Staff)" ∧
    ((assignFromRace true).muIdeal = muIdealOf (assignFromRace true).staffType ∧
     (treatAndLog "P1" 0 0 0 true 1 1).2.staffType = (assignFromRace true).staffType ∧
     (treatAndLog "P1" 0 0 0 true 1 1).1 =
       1 / muActual (muIdealOf (assignFromRace true).staffType) 1 * 1 ∧
     getTreatmentMean heteroParams 0 0 =
       (if (0 : ℚ) < heteroParams.seniorStaffMix / 100 then
          heteroParams.seniorServiceDays * MINS_IN_DAY
        else heteroParams.juniorServiceDays * MINS_IN_DAY) ∧
     (dischargeRec "P1" 0 0 0 0).treatedBy = "Staff") :=
  ⟨rfl, C9_heterogeneous_rate_amended true "P1" 0 0 0 1 1 heteroParams 0 0 rfl⟩

/-- Claim C10: a balked patient is appended to the patient log at arrival
with null WaitTime, TreatmentTime and TotalTime and `TreatedBy` set to the
string N/A; such records are excluded from the mean-wait, mean
length-of-stay and served-count KPIs — which run over the records with a
non-null WaitTime only — while still counting toward the arrival total and
the numerator of the blocking probability. -/
theorem C10_balked_record_kpis (cap : ℕ) (s : WardState) (name : String) (t : ℚ)
    (log : List Rec) (occ : List (ℚ × ℕ)) (duration : ℚ) (numBeds : ℕ) :
    (balkRec name t).waitTime = none ∧
    (balkRec name t).treatmentTime = none ∧
    (balkRec name t).totalTime = none ∧
    (balkRec name t).treatedBy = "N/A" ∧
    (doStep cap { s with bedsInUse := cap } (Step.arrive name t)).log =
      s.log ++ [balkRec name t] ∧
    treatedOf (log ++ [balkRec name t]) = treatedOf log ∧
    (computeKPIs (log ++ [balkRec name t]) occ duration numBeds).patientsServed =
      (computeKPIs log occ duration numBeds).patientsServed ∧
    (computeKPIs (log ++ [balkRec name t]) occ duration numBeds).avgWaitDays =
      (computeKPIs log occ duration numBeds).avgWaitDays ∧
    (computeKPIs (log ++ [balkRec name t]) occ duration numBeds).avgLengthOfStayDays =
      (computeKPIs log occ duration numBeds).avgLengthOfStayDays ∧
    (computeKPIs (log ++ [balkRec name t]) occ duration numBeds).blockingProbabilityPct =
      (((log.filter fun r => containsBalked r.status).length : ℚ) + 1) /
        ((log.length : ℚ) + 1) * 100 := by
  have htreated : treatedOf (log ++ [balkRec name t]) = treatedOf log := by
    simp [treatedOf, List.filter_append, balkRec]
  have hbalk : containsBalked "Balked (No Beds)" = true := by decide
  refine ⟨rfl, rfl, rfl, rfl, ?_, htreated, ?_, ?_, ?_, ?_⟩
  · simp [doStep]
  · simp only [computeKPIs]
    rw [htreated]
  · simp only [computeKPIs]
    rw [htreated]
  · simp only [computeKPIs]
    rw [htreated]
  · have hfil : (List.filter (fun r => containsBalked r.status) [balkRec name t]) =
        [balkRec name t] := by
      simp [List.filter_singleton, balkRec, hbalk]
    simp only [computeKPIs, List.filter_append, List.length_append, List.length_singleton,
      hfil]
    rw [if_pos (by omega)]
    push_cast
    ring

/-- Claim C3, witness for the amended theorem, at mu one, three occupied
beds, zero staff users and the shipped workload configuration. -/
theorem C3_workload_rate_amended_witness :
    (0 : ℚ) ≤ 1 ∧ workloadParams.scenario =
      "Workload-Dependent Model (Dynamic Service Rates)" ∧
    0 < workloadParams.numStaff ∧ (0 : ℚ) ≤ workloadParams.seniorServiceDays ∧
    (muActual 1 3 ≤ 1 ∧
     ((((if 3 = 0 then 1 else 3 : ℕ)) : ℚ) ≤
         ALPHA * ((NUM_SENIOR_STAFF : ℚ) + (NUM_JUNIOR_STAFF : ℚ)) →
       muActual 1 3 = 1) ∧
     workloadParams.seniorServiceDays * MINS_IN_DAY ≤
       getTreatmentMean workloadParams 0 0 ∧
     ((0 : ℚ) ≤ workloadParams.workloadAlpha * (workloadParams.numStaff : ℚ) →
       getTreatmentMean workloadParams 0 0 =
         workloadParams.seniorServiceDays * MINS_IN_DAY)) :=
  ⟨by norm_num, rfl, by decide, by norm_num [workloadParams],
    C3_workload_rate_amended 1 3 workloadParams 0 0 (by norm_num) rfl (by decide)
      (by norm_num [workloadParams])⟩

end HospitalSim
